import Mathlib

/-!
Shallow embedding of `odoo_log_analyser.py`: the `read_log` reader (line
classification, entry building, bucketed finalization) and the per-endpoint
aggregation loop of `main`.  Times are exact rationals; a text file is
modelled as the list of strings Python's `for line in log_file` yields:
every line retains its trailing newline, except a final line the file does
not terminate with one.  In particular the no-perf-data check
`line.endswith("-")` sees that newline, so it can fire only on an
unterminated final line.  Python exceptions (`IndexError`, `ValueError`)
are modelled with `Except String`.
-/

namespace OdooLog

/-- Embeds `_LEVEL_MAPPING = getLevelNamesMapping()` from CPython `logging`. -/
def LEVEL_MAPPING : List (String × Nat) :=
  [("CRITICAL", 50), ("FATAL", 50), ("ERROR", 40), ("WARN", 30),
   ("WARNING", 30), ("INFO", 20), ("DEBUG", 10), ("NOTSET", 0)]

/-- Embeds `LOG_LEVELS = tuple(getLevelNamesMapping())`. -/
def LOG_LEVELS : List String := LEVEL_MAPPING.map Prod.fst

/-- Embeds `REQUEST_KEY = "REQUEST"`. -/
def REQUEST_KEY : String := "REQUEST"

/-- Embeds `_YEAR_SUFFIX = "202"`. -/
def YEAR_SUFFIX : String := "202"

/-- First-match lookup in an association list, with a default
(`dict.get(k, d)` / `defaultdict` read). -/
def lookupD {α : Type} (l : List (String × α)) (k : String) (d : α) : α :=
  match l with
  | [] => d
  | (k', v) :: t => if k' = k then v else lookupD t k d

/-- First-match lookup in an association list (`dict` membership + read). -/
def lookupOpt {α : Type} (l : List (String × α)) (k : String) : Option α :=
  match l with
  | [] => none
  | (k', v) :: t => if k' = k then some v else lookupOpt t k

/-- Write a key in an association list, keeping insertion order like a
Python `dict`: an existing key is updated in place, a new key goes last. -/
def setKey {α : Type} (l : List (String × α)) (k : String) (v : α) : List (String × α) :=
  match l with
  | [] => [(k, v)]
  | (k', v') :: t => if k' = k then (k', v) :: t else (k', v') :: setKey t k v

def startsWithChars : List Char → List Char → Bool
  | [], _ => true
  | _ :: _, [] => false
  | p :: ps, c :: cs => p == c && startsWithChars ps cs

/-- Python substring containment `p in s`, on character lists. -/
def hasInfixChars (p : List Char) : List Char → Bool
  | [] => p.isEmpty
  | c :: t => startsWithChars p (c :: t) || hasInfixChars p t

/-- Accumulating splitter behind `pySplit`; `acc` is the current token,
reversed. -/
def wsSplitAux : List Char → List Char → List String
  | [], acc => if acc.isEmpty then [] else [String.mk acc.reverse]
  | c :: t, acc =>
    if c.isWhitespace then
      if acc.isEmpty then wsSplitAux t [] else String.mk acc.reverse :: wsSplitAux t []
    else wsSplitAux t (c :: acc)

/-- Python `str.split()` with no argument: split on whitespace runs,
dropping empty pieces. -/
def pySplit (s : String) : List String :=
  wsSplitAux s.toList []

/-- Python `str.endswith(t)`. -/
def pyEndsWith (s t : String) : Bool :=
  startsWithChars t.toList.reverse s.toList.reverse

/-- Python `s[:-1]`. -/
def pyDropLast (s : String) : String :=
  String.mk s.toList.dropLast

/-- Python `s[1:]`. -/
def pyDropFirst (s : String) : String :=
  String.mk (s.toList.drop 1)

/-- Python `s.split(sep)` for a one-character separator (keeps empty
pieces, so the result is never the empty list). -/
def charSplitOn (sep : Char) : List Char → List (List Char)
  | [] => [[]]
  | c :: t =>
    if c == sep then [] :: charSplitOn sep t
    else
      match charSplitOn sep t with
      | [] => [[c]]
      | h :: r => (c :: h) :: r

/-- Python `" ".join(l)`. -/
def joinSpace : List String → String
  | [] => ""
  | [x] => x
  | x :: y :: t => x ++ " " ++ joinSpace (y :: t)

/-- The header test of `read_log` (line 48): the line starts with `"202"`
and one of the level names, surrounded by spaces, occurs in the first 40
characters (`line[:40]`). -/
def isHeaderLine (line : String) : Bool :=
  startsWithChars YEAR_SUFFIX.toList line.toList &&
    LOG_LEVELS.any (fun ll => hasInfixChars ((" " ++ ll ++ " ").toList) (line.toList.take 40))

def digitsToNat (cs : List Char) : Nat :=
  cs.foldl (fun a c => 10 * a + (c.toNat - 48)) 0

def stripSign (cs : List Char) : Bool × List Char :=
  match cs with
  | '-' :: r => (true, r)
  | '+' :: r => (false, r)
  | _ => (false, cs)

/-- Decimal subset of Python `float(str)`: optional sign, digits with at
most one decimal point.  Scientific notation and specials are not
modelled; no input in this development uses them. -/
def parseFloat (s : String) : Option ℚ :=
  let p := stripSign s.toList
  let app : ℚ → ℚ := fun q => if p.1 then -q else q
  match charSplitOn '.' p.2 with
  | [a] =>
    if !a.isEmpty && a.all Char.isDigit then some (app (digitsToNat a)) else none
  | [a, b] =>
    if (!a.isEmpty || !b.isEmpty) && a.all Char.isDigit && b.all Char.isDigit then
      some (app (((digitsToNat a : ℚ) * 10 ^ b.length + (digitsToNat b : ℚ)) / (10 ^ b.length : ℚ)))
    else none
  | _ => none

/-- Python `int(str)`: optional sign, decimal digits. -/
def parseInt (s : String) : Option Int :=
  let p := stripSign s.toList
  if !p.2.isEmpty && p.2.all Char.isDigit then
    some (if p.1 then -(digitsToNat p.2 : Int) else (digitsToNat p.2 : Int))
  else none

/-- Python list indexing `l[i]` for a non-negative index: `IndexError`
when out of range. -/
def pyIndex {α : Type} (l : List α) (i : Nat) : Except String α :=
  match l.get? i with
  | some x => .ok x
  | none => .error "IndexError"

/-- Python `float(s)`, raising `ValueError` on an unparsable string. -/
def pyFloat (s : String) : Except String ℚ :=
  match parseFloat s with
  | some q => .ok q
  | none => .error "ValueError"

/-- Python `int(s)`, raising `ValueError` on an unparsable string. -/
def pyInt (s : String) : Except String Int :=
  match parseInt s with
  | some n => .ok n
  | none => .error "ValueError"

/-- The `time_str` munging of lines 89-91: strip any fractional-seconds
suffix (`split(".")[0].split(",")[0]`). -/
def timeToken (rawTimeTok : String) : String :=
  String.mk ((charSplitOn ',' ((charSplitOn '.' rawTimeTok.toList).headD [])).headD [])

/-- Shape of `%Y-%m-%d %H:%M:%S` as accepted by `datetime.strptime`;
calendar range validation is not modelled (no claim depends on it). -/
def timestampShape (s : String) : Bool :=
  match s.toList with
  | [y1, y2, y3, y4, '-', m1, m2, '-', d1, d2, ' ',
     h1, h2, ':', n1, n2, ':', s1, s2] =>
    [y1, y2, y3, y4, m1, m2, d1, d2, h1, h2, n1, n2, s1, s2].all Char.isDigit
  | _ => false

/-- Python `datetime.strptime(s, "%Y-%m-%d %H:%M:%S")`, kept as the validated
string. -/
def pyStrptime (s : String) : Except String String :=
  if timestampShape s then .ok s else .error "ValueError"

/-- The request-specific fields of a `current_line` built by the
`werkzeug`/`INFO` branch (lines 67-80). -/
structure RequestData where
  ip : String
  method : String
  endpoint : String
  status : String
  other_time : ℚ
  sql_time : ℚ
  total_time : ℚ
  query_count : Int
deriving Repr, DecidableEq

/-- The message-specific fields of a `current_line` built by the generic
branch (lines 85-86). -/
structure MessageData where
  message : String
  context : List String
deriving Repr, DecidableEq

/-- Discriminates the two shapes the `current_line` dict can take. -/
inductive EntryKind where
  | request (r : RequestData)
  | message (m : MessageData)
deriving Repr, DecidableEq

/-- Line 96: `current_line.setdefault("level", level)` — the request
branch has already set the request sentinel (line 80), the message branch
stores the raw level token. -/
def kindLevel (kind : EntryKind) (level : String) : String :=
  match kind with
  | .request _ => REQUEST_KEY
  | .message _ => level

/-- A completed `current_line` dict: variant fields plus the common fields
of lines 88-99. -/
structure Entry where
  kind : EntryKind
  timestamp : String
  pid : Int
  level : String
  db : String
  logger : String
deriving Repr, DecidableEq

/-- Embeds `log = defaultdict(list)` keyed by `current_line["level"]`, insertion
order preserved. -/
abbrev Bucket := List (String × List Entry)

def bucketGet (b : Bucket) (k : String) : List Entry :=
  lookupD b k []

/-- Embeds `log[k].append(e)` on a `defaultdict(list)`. -/
def bucketAppend (b : Bucket) (k : String) (e : Entry) : Bucket :=
  match b with
  | [] => [(k, [e])]
  | (k', es) :: t => if k' = k then (k', es ++ [e]) :: t else (k', es) :: bucketAppend t k e

/-- Lines 62-86 of `read_log`: build the variant part of the entry, or
signal a skip (`none` models `continue`).  The `pyEndsWith line "-"` guard
is applied to the raw line, which — as yielded by file iteration — keeps
its trailing newline except on an unterminated final line; an interior
line whose content ends with `-` therefore falls through to `float("-")`
and raises `ValueError`. -/
def buildKind (threshold : ℚ) (severity : Nat) (line : String)
    (fragments : List String) (level logger : String) :
    Except String (Option EntryKind) :=
  if logger = "werkzeug" ∧ level = "INFO" then
    if threshold = 0 ∨ pyEndsWith line "-" = true then .ok none
    else
      Except.bind (pyIndex fragments (fragments.length - 1)) fun tOther =>
      Except.bind (pyFloat tOther) fun other_time =>
      Except.bind (pyIndex fragments (fragments.length - 2)) fun tSql =>
      Except.bind (pyFloat tSql) fun sql_time =>
      let total_time := other_time + sql_time
      if total_time < threshold then .ok none
      else
        Except.bind (pyIndex fragments 6) fun ip =>
        Except.bind (pyIndex fragments 11) fun tMethod =>
        Except.bind (pyIndex fragments 12) fun endpoint =>
        Except.bind (pyIndex fragments 14) fun status =>
        Except.bind (pyIndex fragments (fragments.length - 3)) fun tCount =>
        Except.bind (pyInt tCount) fun query_count =>
        .ok (some (.request ⟨ip, pyDropFirst tMethod, endpoint, status,
          other_time, sql_time, total_time, query_count⟩))
  else
    if (lookupOpt LEVEL_MAPPING level).getD 0 < severity then .ok none
    else .ok (some (.message ⟨joinSpace (fragments.drop 6), []⟩))

/-- Lines 56-99 of `read_log`: process one recognized header line into a
new `current_line` (`none` models the `continue` skips). -/
def buildEntry (threshold : ℚ) (severity : Nat) (ignore_no_db : Bool)
    (line : String) : Except String (Option Entry) :=
  let fragments := pySplit line
  Except.bind (pyIndex fragments 3) fun level =>
  Except.bind (pyIndex fragments 5) fun rawLogger =>
  let logger := pyDropLast rawLogger
  Except.bind (pyIndex fragments 4) fun db =>
  if ignore_no_db = true ∧ db = "?" then .ok none
  else
    Except.bind (buildKind threshold severity line fragments level logger) fun kindOpt =>
    match kindOpt with
    | none => .ok none
    | some kind =>
      Except.bind (pyIndex fragments 0) fun date_str =>
      Except.bind (pyIndex fragments 1) fun rawTimeTok =>
      let time_str := timeToken rawTimeTok
      Except.bind (pyStrptime (date_str ++ " " ++ time_str)) fun timestamp =>
      Except.bind (pyIndex fragments 2) fun pidTok =>
      Except.bind (pyInt pidTok) fun pid =>
      .ok (some ⟨kind, timestamp, pid, kindLevel kind level, db, logger⟩)

/-- The loop state of `read_log`: the bucket map `log` and the in-progress
`current_line` (`none` for the empty dict). -/
structure RState where
  log : Bucket
  current : Option Entry
deriving Repr, DecidableEq

/-- Lines 52-53: finalize the in-progress entry into its bucket. -/
def finalizeLog (s : RState) : Bucket :=
  match s.current with
  | some c => bucketAppend s.log c.level c
  | none => s.log

/-- One iteration of the `for line in log_file` loop (lines 40-102). -/
def step (threshold : ℚ) (severity : Nat) (ignore_no_db : Bool)
    (s : RState) (line : String) : Except String RState :=
  if isHeaderLine line then
    Except.bind (buildEntry threshold severity ignore_no_db line) fun cur =>
    .ok ⟨finalizeLog s, cur⟩
  else
    match s.current with
    | some c =>
      match c.kind with
      | .message m =>
        .ok ⟨s.log, some { c with kind := .message ⟨m.message, m.context ++ [line]⟩ }⟩
      | .request _ => .ok s
    | none => .ok s

/-- The whole loop of `read_log`, from the empty state. -/
def processLines (threshold : ℚ) (severity : Nat) (ignore_no_db : Bool)
    (lines : List String) : Except String RState :=
  lines.foldlM (step threshold severity ignore_no_db) ⟨[], none⟩

/-- The value `read_log` returns once the file is read: the bucket map;
the final in-progress entry is discarded (line 105 returns `log`). -/
def readLines (threshold : ℚ) (severity : Nat) (ignore_no_db : Bool)
    (lines : List String) : Except String Bucket :=
  Except.map RState.log (processLines threshold severity ignore_no_db lines)

/-- Embeds the `if not threshold` truthiness of the optional threshold. -/
def pyFalsy (threshold : Option ℚ) : Bool :=
  match threshold with
  | none => true
  | some t => t == 0

/-- Embeds `max(_LEVEL_MAPPING.values())`. -/
def maxLevelValue : Nat := (LEVEL_MAPPING.map Prod.snd).foldl max 0

/-- Embeds `read_log(logfile, threshold, severity, ignore_no_db)`.  The file
argument carries a possible `open` failure; the guard of line 28 returns
before the file is touched. -/
def read_log (logfile : Except String (List String)) (threshold : Option ℚ := none)
    (severity : Option Nat := none) (ignore_no_db : Bool := true) :
    Except String Bucket :=
  if pyFalsy threshold && severity.isNone then .ok []
  else
    let th := threshold.getD 0
    let sev := severity.getD (1 + maxLevelValue)
    Except.bind logfile fun lines => readLines th sev ignore_no_db lines

/-- Embeds `re.sub(r"^/[a-z]{2}_[A-Z]{2}/", "/", ep)` of `main` (line 159): the
anchored pattern is replaced at most once, at the start. -/
def normEp (ep : String) : String :=
  match ep.toList with
  | '/' :: a :: b :: '_' :: c :: d :: '/' :: rest =>
    if a.isLower && b.isLower && c.isUpper && d.isUpper then String.mk ('/' :: rest)
    else ep
  | _ => ep

/-- The aggregation accumulators of `main`: `ep_hits = defaultdict(int)`
and `ep_times = defaultdict(int)`. -/
structure AggState where
  ep_hits : List (String × Nat)
  ep_times : List (String × ℚ)
deriving Repr, DecidableEq

/-- One iteration of the `for line in requests` loop (lines 156-163):
update the running average with the old hit count, then bump the count. -/
def aggStep (s : AggState) (r : RequestData) : AggState :=
  let ep := normEp r.endpoint
  let h := lookupD s.ep_hits ep 0
  let t := lookupD s.ep_times ep 0
  { ep_hits := setKey s.ep_hits ep (h + 1),
    ep_times := setKey s.ep_times ep ((t * (h : ℚ) + r.total_time) / ((h : ℚ) + 1)) }

/-- The whole aggregation loop over the request bucket, in file order. -/
def aggregate (reqs : List RequestData) : AggState :=
  reqs.foldl aggStep ⟨[], []⟩

/-- The requests whose normalized endpoint is `E` (the batch-mean side of
the running-average claim). -/
def epFilter (reqs : List RequestData) (E : String) : List RequestData :=
  reqs.filter (fun r => normEp r.endpoint == E)

/-! ### Helper lemmas -/

theorem pyIndex_ok {α : Type} {l : List α} {i : Nat} {x : α} (h : l.get? i = some x) :
    pyIndex l i = .ok x := by
  unfold pyIndex
  rw [h]

theorem pyIndex_ok_iff {α : Type} {l : List α} {i : Nat} {x : α} :
    pyIndex l i = .ok x ↔ l.get? i = some x := by
  unfold pyIndex
  cases h : l.get? i <;> simp

theorem ex_bind_ok {ε α β : Type} (a : α) (f : α → Except ε β) :
    Except.bind (.ok a) f = f a := rfl

theorem ex_bind_error {ε α β : Type} (e : ε) (f : α → Except ε β) :
    Except.bind (.error e) f = .error e := rfl

theorem pyFloat_ok {t : String} {q : ℚ} (h : parseFloat t = some q) :
    pyFloat t = .ok q := by
  unfold pyFloat
  rw [h]

theorem pyInt_ok {t : String} {n : Int} (h : parseInt t = some n) :
    pyInt t = .ok n := by
  unfold pyInt
  rw [h]

/-! ### Evaluation lemmas for the entry builder -/

theorem buildKind_msg_skip {th : ℚ} {sev : Nat} {line : String} {fr : List String}
    {lv lg : String} (hneq : ¬(lg = "werkzeug" ∧ lv = "INFO"))
    (hrank : (lookupOpt LEVEL_MAPPING lv).getD 0 < sev) :
    buildKind th sev line fr lv lg = .ok none := by
  unfold buildKind
  rw [if_neg hneq, if_pos hrank]

theorem buildKind_msg_keep {th : ℚ} {sev : Nat} {line : String} {fr : List String}
    {lv lg : String} (hneq : ¬(lg = "werkzeug" ∧ lv = "INFO"))
    (hrank : ¬((lookupOpt LEVEL_MAPPING lv).getD 0 < sev)) :
    buildKind th sev line fr lv lg = .ok (some (.message ⟨joinSpace (fr.drop 6), []⟩)) := by
  unfold buildKind
  rw [if_neg hneq, if_neg hrank]

theorem buildKind_req_noperf {th : ℚ} {sev : Nat} {line : String} {fr : List String}
    {lv lg : String} (heq : lg = "werkzeug" ∧ lv = "INFO")
    (hsk : th = 0 ∨ pyEndsWith line "-" = true) :
    buildKind th sev line fr lv lg = .ok none := by
  unfold buildKind
  rw [if_pos heq, if_pos hsk]

theorem buildKind_req_slow {th : ℚ} {sev : Nat} {line : String} {fr : List String}
    {lv lg tO tS : String} {o s : ℚ} (heq : lg = "werkzeug" ∧ lv = "INFO")
    (hsk : ¬(th = 0 ∨ pyEndsWith line "-" = true))
    (ho : fr.get? (fr.length - 1) = some tO) (hfo : parseFloat tO = some o)
    (hs : fr.get? (fr.length - 2) = some tS) (hfs : parseFloat tS = some s)
    (hlt : o + s < th) :
    buildKind th sev line fr lv lg = .ok none := by
  unfold buildKind
  rw [if_pos heq, if_neg hsk, pyIndex_ok ho, ex_bind_ok, pyFloat_ok hfo, ex_bind_ok,
    pyIndex_ok hs, ex_bind_ok, pyFloat_ok hfs, ex_bind_ok, if_pos hlt]

theorem buildKind_req_float_err {th : ℚ} {sev : Nat} {line : String} {fr : List String}
    {lv lg tO : String} (heq : lg = "werkzeug" ∧ lv = "INFO")
    (hsk : ¬(th = 0 ∨ pyEndsWith line "-" = true))
    (ho : fr.get? (fr.length - 1) = some tO) (hfo : parseFloat tO = none) :
    buildKind th sev line fr lv lg = .error "ValueError" := by
  unfold buildKind
  rw [if_pos heq, if_neg hsk, pyIndex_ok ho, ex_bind_ok]
  unfold pyFloat
  rw [hfo]
  rfl

theorem buildKind_req_err14 {th : ℚ} {sev : Nat} {line : String} {fr : List String}
    {lv lg tO tS ip m ep : String} {o s : ℚ} (heq : lg = "werkzeug" ∧ lv = "INFO")
    (hsk : ¬(th = 0 ∨ pyEndsWith line "-" = true))
    (ho : fr.get? (fr.length - 1) = some tO) (hfo : parseFloat tO = some o)
    (hs : fr.get? (fr.length - 2) = some tS) (hfs : parseFloat tS = some s)
    (hlt : ¬(o + s < th))
    (h6 : fr.get? 6 = some ip) (h11 : fr.get? 11 = some m) (h12 : fr.get? 12 = some ep)
    (h14 : fr.get? 14 = none) :
    buildKind th sev line fr lv lg = .error "IndexError" := by
  unfold buildKind
  rw [if_pos heq, if_neg hsk, pyIndex_ok ho, ex_bind_ok, pyFloat_ok hfo, ex_bind_ok,
    pyIndex_ok hs, ex_bind_ok, pyFloat_ok hfs, ex_bind_ok, if_neg hlt,
    pyIndex_ok h6, ex_bind_ok, pyIndex_ok h11, ex_bind_ok, pyIndex_ok h12, ex_bind_ok]
  unfold pyIndex
  rw [h14]
  rfl

theorem buildKind_req_keep {th : ℚ} {sev : Nat} {line : String} {fr : List String}
    {lv lg tO tS ip m ep st tC : String} {o s : ℚ} {qc : Int}
    (heq : lg = "werkzeug" ∧ lv = "INFO")
    (hsk : ¬(th = 0 ∨ pyEndsWith line "-" = true))
    (ho : fr.get? (fr.length - 1) = some tO) (hfo : parseFloat tO = some o)
    (hs : fr.get? (fr.length - 2) = some tS) (hfs : parseFloat tS = some s)
    (hlt : ¬(o + s < th))
    (h6 : fr.get? 6 = some ip) (h11 : fr.get? 11 = some m) (h12 : fr.get? 12 = some ep)
    (h14 : fr.get? 14 = some st) (hc : fr.get? (fr.length - 3) = some tC)
    (hqc : parseInt tC = some qc) :
    buildKind th sev line fr lv lg =
      .ok (some (.request ⟨ip, pyDropFirst m, ep, st, o, s, o + s, qc⟩)) := by
  unfold buildKind
  rw [if_pos heq, if_neg hsk, pyIndex_ok ho, ex_bind_ok, pyFloat_ok hfo, ex_bind_ok,
    pyIndex_ok hs, ex_bind_ok, pyFloat_ok hfs, ex_bind_ok, if_neg hlt,
    pyIndex_ok h6, ex_bind_ok, pyIndex_ok h11, ex_bind_ok, pyIndex_ok h12, ex_bind_ok,
    pyIndex_ok h14, ex_bind_ok, pyIndex_ok hc, ex_bind_ok, pyInt_ok hqc, ex_bind_ok]

theorem buildEntry_db_skip {th : ℚ} {sev : Nat} {ign : Bool} {line : String}
    {lvl t5 db : String}
    (h3 : (pySplit line).get? 3 = some lvl) (h5 : (pySplit line).get? 5 = some t5)
    (h4 : (pySplit line).get? 4 = some db) (hdb : ign = true ∧ db = "?") :
    buildEntry th sev ign line = .ok none := by
  unfold buildEntry
  dsimp only []
  rw [pyIndex_ok h3, ex_bind_ok, pyIndex_ok h5, ex_bind_ok, pyIndex_ok h4, ex_bind_ok,
    if_pos hdb]

theorem buildEntry_kind_err {th : ℚ} {sev : Nat} {ign : Bool} {line : String}
    {lvl t5 db msg : String}
    (h3 : (pySplit line).get? 3 = some lvl) (h5 : (pySplit line).get? 5 = some t5)
    (h4 : (pySplit line).get? 4 = some db) (hdb : ¬(ign = true ∧ db = "?"))
    (hk : buildKind th sev line (pySplit line) lvl (pyDropLast t5) = .error msg) :
    buildEntry th sev ign line = .error msg := by
  unfold buildEntry
  dsimp only []
  rw [pyIndex_ok h3, ex_bind_ok, pyIndex_ok h5, ex_bind_ok, pyIndex_ok h4, ex_bind_ok,
    if_neg hdb, hk, ex_bind_error]

theorem buildEntry_kind_skip {th : ℚ} {sev : Nat} {ign : Bool} {line : String}
    {lvl t5 db : String}
    (h3 : (pySplit line).get? 3 = some lvl) (h5 : (pySplit line).get? 5 = some t5)
    (h4 : (pySplit line).get? 4 = some db) (hdb : ¬(ign = true ∧ db = "?"))
    (hk : buildKind th sev line (pySplit line) lvl (pyDropLast t5) = .ok none) :
    buildEntry th sev ign line = .ok none := by
  unfold buildEntry
  dsimp only []
  rw [pyIndex_ok h3, ex_bind_ok, pyIndex_ok h5, ex_bind_ok, pyIndex_ok h4, ex_bind_ok,
    if_neg hdb, hk, ex_bind_ok]

theorem buildEntry_kind_keep {th : ℚ} {sev : Nat} {ign : Bool} {line : String}
    {lvl t5 db d t p ts : String} {kind : EntryKind} {pid : Int}
    (h3 : (pySplit line).get? 3 = some lvl) (h5 : (pySplit line).get? 5 = some t5)
    (h4 : (pySplit line).get? 4 = some db) (hdb : ¬(ign = true ∧ db = "?"))
    (hk : buildKind th sev line (pySplit line) lvl (pyDropLast t5) = .ok (some kind))
    (h0 : (pySplit line).get? 0 = some d) (h1 : (pySplit line).get? 1 = some t)
    (hts : pyStrptime (d ++ " " ++ timeToken t) = .ok ts)
    (h2 : (pySplit line).get? 2 = some p) (hp : parseInt p = some pid) :
    buildEntry th sev ign line =
      .ok (some ⟨kind, ts, pid, kindLevel kind lvl, db, pyDropLast t5⟩) := by
  unfold buildEntry
  dsimp only []
  rw [pyIndex_ok h3, ex_bind_ok, pyIndex_ok h5, ex_bind_ok, pyIndex_ok h4, ex_bind_ok,
    if_neg hdb, hk, ex_bind_ok]
  show Except.bind (pyIndex (pySplit line) 0) _ = _
  rw [pyIndex_ok h0, ex_bind_ok, pyIndex_ok h1, ex_bind_ok]
  show Except.bind (pyStrptime (d ++ " " ++ timeToken t)) _ = _
  rw [hts, ex_bind_ok, pyIndex_ok h2, ex_bind_ok, pyInt_ok hp, ex_bind_ok]

/-! ### Evaluation lemmas for the loop step -/

theorem step_header_skip {th : ℚ} {sev : Nat} {ign : Bool} {s : RState} {line : String}
    (hh : isHeaderLine line = true) (hb : buildEntry th sev ign line = .ok none) :
    step th sev ign s line = .ok ⟨finalizeLog s, none⟩ := by
  unfold step
  rw [if_pos hh, hb, ex_bind_ok]

theorem step_header_err {th : ℚ} {sev : Nat} {ign : Bool} {s : RState}
    {line msg : String}
    (hh : isHeaderLine line = true) (hb : buildEntry th sev ign line = .error msg) :
    step th sev ign s line = .error msg := by
  unfold step
  rw [if_pos hh, hb, ex_bind_error]

theorem step_header_keep {th : ℚ} {sev : Nat} {ign : Bool} {s : RState} {line : String}
    {e : Entry}
    (hh : isHeaderLine line = true) (hb : buildEntry th sev ign line = .ok (some e)) :
    step th sev ign s line = .ok ⟨finalizeLog s, some e⟩ := by
  unfold step
  rw [if_pos hh, hb, ex_bind_ok]

theorem processLines_cons (th : ℚ) (sev : Nat) (ign : Bool) (l : String)
    (rest : List String) :
    processLines th sev ign (l :: rest) =
      Except.bind (step th sev ign ⟨[], none⟩ l)
        (fun s' => rest.foldlM (step th sev ign) s') := rfl

theorem readLines_err {th : ℚ} {sev : Nat} {ign : Bool} {lines : List String}
    {msg : String} (h : processLines th sev ign lines = .error msg) :
    readLines th sev ign lines = .error msg := by
  unfold readLines
  rw [h]
  rfl

theorem read_log_run {lines : List String} {threshold : Option ℚ}
    {severity : Option Nat} {ign : Bool}
    (hg : (pyFalsy threshold && severity.isNone) = false) :
    read_log (.ok lines) threshold severity ign =
      readLines (threshold.getD 0) (severity.getD (1 + maxLevelValue)) ign lines := by
  unfold read_log
  rw [hg, if_neg Bool.false_ne_true]
  rfl

/-! ### C10 — falsy threshold and unset severity return `{}` before the
file is opened -/

/-- C10: when the request-capture threshold is unset or zero and the
severity filter is unset, `read_log` returns the empty mapping before
touching the file, so even a failed `open` surfaces no error. -/
theorem c10_early_return (logfile : Except String (List String)) (threshold : Option ℚ)
    (ign : Bool) (h : threshold = none ∨ threshold = some 0) :
    read_log logfile threshold none ign = .ok [] := by
  rcases h with h | h <;> subst h <;> rfl

theorem c10_early_return_w :
    read_log (.error "FileNotFoundError") none none true = .ok [] :=
  c10_early_return (.error "FileNotFoundError") none true (Or.inl rfl)

/-! ### C9 — endpoint locale-segment normalization -/

/-- C9: `normEp` strips exactly one leading `/xx_YY/` segment (two
lowercase letters, underscore, two uppercase letters), replacing it with
`/`; `/en_US/shop` and `/shop` both map to `/shop`; endpoints without
such a segment are unchanged; only the first segment is stripped. -/
theorem c9_normalization :
    (∀ (a b c d : Char) (rest : List Char),
      a.isLower = true → b.isLower = true → c.isUpper = true → d.isUpper = true →
      normEp (String.mk ('/' :: a :: b :: '_' :: c :: d :: '/' :: rest)) =
        String.mk ('/' :: rest))
    ∧ (∀ ep : String,
      (match ep.toList with
        | '/' :: a :: b :: '_' :: c :: d :: '/' :: _ =>
          a.isLower && b.isLower && c.isUpper && d.isUpper
        | _ => false) = false →
      normEp ep = ep)
    ∧ normEp "/en_US/shop" = "/shop"
    ∧ normEp "/shop" = "/shop"
    ∧ normEp "/en_US/fr_FR/shop" = "/fr_FR/shop" := by
  refine ⟨?_, ?_, rfl, rfl, rfl⟩
  · intro a b c d rest ha hb hc hd
    simp [normEp, String.toList, ha, hb, hc, hd]
  · intro ep h
    unfold normEp
    split
    · rename_i a b c d rest heq
      rw [heq] at h
      simp only [Bool.false_eq_true] at h
      rw [if_neg]
      simp [h]
    · rfl

theorem c9_normalization_w :
    normEp (String.mk ('/' :: 'd' :: 'e' :: '_' :: 'A' :: 'T' :: '/' :: "x".toList)) =
      String.mk ('/' :: "x".toList)
    ∧ normEp "/api/shop" = "/api/shop" :=
  ⟨c9_normalization.1 'd' 'e' 'A' 'T' "x".toList rfl rfl rfl rfl,
   c9_normalization.2.1 "/api/shop" rfl⟩

/-! ### C2 — the spec's single-request scenario -/

/-- The scenario input line of the spec (§8). -/
def c2Line : String :=
  "2024-01-01 10:00:00,000 123 INFO mydb werkzeug: GET / HTTP/1.1 200 - 5 0.010 0.040"

theorem parseFloat_0040 : parseFloat "0.040" = some (1/25) := by
  show some (((digitsToNat ['0'] : ℚ) * 10 ^ 3 + (digitsToNat ['0', '4', '0'] : ℚ)) / 10 ^ 3)
    = some (1/25)
  norm_num [digitsToNat, show '0'.toNat = 48 from rfl, show '4'.toNat = 52 from rfl]

theorem parseFloat_0010 : parseFloat "0.010" = some (1/100) := by
  show some (((digitsToNat ['0'] : ℚ) * 10 ^ 3 + (digitsToNat ['0', '1', '0'] : ℚ)) / 10 ^ 3)
    = some (1/100)
  norm_num [digitsToNat, show '0'.toNat = 48 from rfl, show '1'.toNat = 49 from rfl]

/-- Workhorse for the C2 results: on the scenario line, the builder fails
with `IndexError` while reading the status token at fixed position 14. -/
theorem c2_build_err :
    buildEntry (1/25) 51 true c2Line = .error "IndexError" := by
  have hsk : ¬((1/25 : ℚ) = 0 ∨ pyEndsWith c2Line "-" = true) := by
    push_neg
    exact ⟨by norm_num, by decide⟩
  have hlt : ¬((1/25 : ℚ) + 1/100 < 1/25) := by norm_num
  exact buildEntry_kind_err rfl rfl rfl (by simp)
    (buildKind_req_err14 ⟨rfl, rfl⟩ hsk rfl parseFloat_0040 rfl parseFloat_0010
      hlt rfl rfl rfl rfl)

/-- Shared evaluation: `read_log` on the scenario line fails. -/
theorem c2_read_err :
    read_log (.ok [c2Line]) (some (1/25)) none true = .error "IndexError" := by
  rw [read_log_run (by norm_num [pyFalsy])]
  show readLines (1/25) 51 true [c2Line] = .error "IndexError"
  refine readLines_err ?_
  rw [processLines_cons,
    step_header_err (show isHeaderLine c2Line = true from rfl) c2_build_err, ex_bind_error]

/-- C2 counterexample: on the scenario line with `minTotalTime = 0.04`
(and default severity/ignore flags), `read_log` does not produce any
entry: it raises `IndexError`, because the line has only 14 whitespace
tokens while the status field is read from fixed position 14. -/
theorem c2_scenario_cx :
    read_log (.ok [c2Line]) (some (1/25)) none true = .error "IndexError" :=
  c2_read_err

/-- C2 amended: the scenario line is recognized as a request header and
its perf tokens parse to `otherTime = 0.040`, `sqlTime = 0.010` (sum
`0.05`) with query-count token `5`, but the line has only 14 tokens, so
reading the status at fixed position 14 raises `IndexError` and
`read_log` returns no entry at all. -/
theorem c2_scenario_amended :
    read_log (.ok [c2Line]) (some (1/25)) none true = .error "IndexError"
    ∧ isHeaderLine c2Line = true
    ∧ (pySplit c2Line).length = 14
    ∧ (pySplit c2Line).get? 3 = some "INFO"
    ∧ (pySplit c2Line).get? 5 = some "werkzeug:"
    ∧ (pySplit c2Line).get? 13 = some "0.040"
    ∧ (pySplit c2Line).get? 12 = some "0.010"
    ∧ (pySplit c2Line).get? 11 = some "5"
    ∧ (pySplit c2Line).get? 14 = none
    ∧ pyFloat "0.040" = .ok (1/25)
    ∧ pyFloat "0.010" = .ok (1/100)
    ∧ (1/25 : ℚ) + 1/100 = 1/20
    ∧ pyInt "5" = .ok 5 := by
  exact ⟨c2_read_err, rfl, rfl, rfl, rfl, rfl, rfl, rfl, rfl,
    pyFloat_ok parseFloat_0040, pyFloat_ok parseFloat_0010, by norm_num, rfl⟩

/-! ### C4 — unknown severity level names -/

/-- A recognized header line whose level token `TRACE` is not a known
level name (the known name `INFO` appears in the db position, which puts
the line past the classifier). -/
def c4Line : String := "2024-01-01 10:00:00,000 1 TRACE INFO foo: hello"

/-- C4 counterexample: a header line with unknown level token `TRACE`
is skipped by the severity filter at `minSeverity = 20` (INFO), so
unknown levels do not always pass the filter. -/
theorem c4_unknown_level_cx :
    isHeaderLine c4Line = true
    ∧ (pySplit c4Line).get? 3 = some "TRACE"
    ∧ lookupOpt LEVEL_MAPPING "TRACE" = none
    ∧ (pySplit c4Line).get? 4 = some "INFO"
    ∧ buildEntry 1 20 true c4Line = .ok none
    ∧ readLines 1 20 true [c4Line] = .ok [] :=
  ⟨rfl, rfl, rfl, rfl, rfl, rfl⟩

/-- C4 amended: an unknown level name gets rank 0 from the lookup
default, so the severity filter skips such a header line whenever
`minSeverity` is positive (it passes only at `minSeverity = 0`). -/
theorem c4_unknown_level_amended
    (th : ℚ) (sev : Nat) (ign : Bool) (s : RState) (line lvl t5 db : String)
    (hh : isHeaderLine line = true)
    (h3 : (pySplit line).get? 3 = some lvl)
    (h5 : (pySplit line).get? 5 = some t5)
    (h4 : (pySplit line).get? 4 = some db)
    (hunk : lookupOpt LEVEL_MAPPING lvl = none)
    (hdb : ¬(ign = true ∧ db = "?"))
    (hsev : 0 < sev) :
    buildEntry th sev ign line = .ok none ∧
    step th sev ign s line = .ok ⟨finalizeLog s, none⟩ := by
  have hni : ¬(pyDropLast t5 = "werkzeug" ∧ lvl = "INFO") := by
    rintro ⟨-, hl⟩
    rw [hl] at hunk
    exact absurd hunk (by decide)
  have hb : buildEntry th sev ign line = .ok none :=
    buildEntry_kind_skip h3 h5 h4 hdb
      (buildKind_msg_skip hni (by rw [hunk]; exact hsev))
  exact ⟨hb, step_header_skip hh hb⟩

theorem c4_unknown_level_w :
    buildEntry 1 20 true c4Line = .ok none ∧
    step 1 20 true ⟨[], none⟩ c4Line = .ok ⟨finalizeLog ⟨[], none⟩, none⟩ :=
  c4_unknown_level_amended 1 20 true ⟨[], none⟩ c4Line "TRACE" "foo:" "INFO"
    rfl rfl rfl rfl rfl (by simp) (by norm_num)

/-! ### C5 — the no-perf-data skip versus the retained trailing newline -/

/-- A header line that is retained (or cleanly skipped) under every
configuration, used to force finalization of the previous entry. -/
def flushLine : String := "2024-01-01 00:00:00,000 7 CRITICAL adb core: x"

/-- A request line whose content ends with the `-` sentinel, without a
trailing newline: only a final, unterminated file line reaches the loop
in this shape. -/
def c5Line : String :=
  "2024-01-01 10:00:00,000 9 INFO mydb werkzeug: 1.2.3.4 - - GET / HTTP/1.1 200 -"

/-- The same sentinel line as an interior file line: `for line in
log_file` yields it with its trailing newline. -/
def c5LineNl : String := c5Line ++ "\n"

/-- C5 counterexample: an interior request line whose content ends with
the `-` sentinel is not skipped — the raw line ends with the retained
newline, so `endswith("-")` is false, and the builder falls through to
`float("-")`, raising `ValueError`; `read_log` on a file holding that
line followed by another header aborts instead of continuing. -/
theorem c5_sentinel_cx :
    pyEndsWith c5Line "-" = true
    ∧ c5LineNl = c5Line ++ "\n"
    ∧ pyEndsWith c5LineNl "-" = false
    ∧ buildEntry 5 51 true c5LineNl = .error "ValueError"
    ∧ read_log (.ok [c5LineNl, flushLine]) (some 5) none true = .error "ValueError" := by
  have hsk : ¬((5 : ℚ) = 0 ∨ pyEndsWith c5LineNl "-" = true) := by
    push_neg
    exact ⟨by norm_num, by decide⟩
  have hb : buildEntry 5 51 true c5LineNl = .error "ValueError" :=
    buildEntry_kind_err rfl rfl rfl (by simp)
      (buildKind_req_float_err ⟨rfl, rfl⟩ hsk rfl rfl)
  refine ⟨rfl, rfl, rfl, hb, ?_⟩
  rw [read_log_run (by norm_num [pyFalsy])]
  show readLines 5 51 true [c5LineNl, flushLine] = .error "ValueError"
  refine readLines_err ?_
  rw [processLines_cons,
    step_header_err (show isHeaderLine c5LineNl = true from rfl) hb, ex_bind_error]

/-- C5 amended: on a request header (`werkzeug`/`INFO`), the builder
skips the line when the threshold is zero (a zero/unset `minTotalTime`)
or when the raw line as read ends with `-` — since file iteration keeps
the trailing newline, only a final unterminated line can satisfy that
check; when neither holds and the last token fails float parsing (as on
an interior sentinel line, whose last token is `-`), the builder raises
`ValueError` instead of skipping. -/
theorem c5_request_skip_amended :
    (∀ (th : ℚ) (sev : Nat) (ign : Bool) (s : RState) (line t5 db : String),
      isHeaderLine line = true →
      (pySplit line).get? 3 = some "INFO" →
      (pySplit line).get? 5 = some t5 → pyDropLast t5 = "werkzeug" →
      (pySplit line).get? 4 = some db → ¬(ign = true ∧ db = "?") →
      (th = 0 ∨ pyEndsWith line "-" = true) →
      buildEntry th sev ign line = .ok none ∧
      step th sev ign s line = .ok ⟨finalizeLog s, none⟩)
    ∧ (∀ (th : ℚ) (sev : Nat) (ign : Bool) (line t5 db tO : String),
      (pySplit line).get? 3 = some "INFO" →
      (pySplit line).get? 5 = some t5 → pyDropLast t5 = "werkzeug" →
      (pySplit line).get? 4 = some db → ¬(ign = true ∧ db = "?") →
      ¬(th = 0 ∨ pyEndsWith line "-" = true) →
      (pySplit line).get? ((pySplit line).length - 1) = some tO →
      parseFloat tO = none →
      buildEntry th sev ign line = .error "ValueError") := by
  constructor
  · intro th sev ign s line t5 db hh h3 h5 hwz h4 hdb hskip
    have hb : buildEntry th sev ign line = .ok none :=
      buildEntry_kind_skip h3 h5 h4 hdb (buildKind_req_noperf ⟨hwz, rfl⟩ hskip)
    exact ⟨hb, step_header_skip hh hb⟩
  · intro th sev ign line t5 db tO h3 h5 hwz h4 hdb hsk ho hfo
    exact buildEntry_kind_err h3 h5 h4 hdb
      (buildKind_req_float_err ⟨hwz, rfl⟩ hsk ho hfo)

theorem c5_request_skip_amended_w :
    buildEntry 5 51 true c5Line = .ok none
    ∧ step 5 51 true ⟨[], none⟩ c5Line = .ok ⟨finalizeLog ⟨[], none⟩, none⟩
    ∧ buildEntry 5 51 true c5LineNl = .error "ValueError" := by
  obtain ⟨h1, h2⟩ := c5_request_skip_amended.1 5 51 true ⟨[], none⟩ c5Line
    "werkzeug:" "mydb" rfl rfl rfl rfl rfl (by simp) (Or.inr rfl)
  refine ⟨h1, h2, ?_⟩
  exact c5_request_skip_amended.2 5 51 true c5LineNl "werkzeug:" "mydb" "-"
    rfl rfl rfl rfl (by simp)
    (by push_neg; exact ⟨by norm_num, by decide⟩) rfl rfl

/-! ### C8 — `ignoreNoDb` drops `?`-db lines wholesale -/

/-- C8: with `ignore_no_db = true`, a header line whose db token is `?`
contributes no entry and leaves no open accumulator — the previously open
entry is still finalized first — and subsequent continuation lines are
dropped until the next header. -/
theorem c8_ignore_no_db
    (th : ℚ) (sev : Nat) (s : RState) (line lvl t5 : String)
    (hh : isHeaderLine line = true)
    (h3 : (pySplit line).get? 3 = some lvl)
    (h5 : (pySplit line).get? 5 = some t5)
    (h4 : (pySplit line).get? 4 = some "?") :
    buildEntry th sev true line = .ok none
    ∧ step th sev true s line = .ok ⟨finalizeLog s, none⟩
    ∧ (∀ c, s.current = some c → finalizeLog s = bucketAppend s.log c.level c)
    ∧ (∀ l2, isHeaderLine l2 = false →
        step th sev true ⟨finalizeLog s, none⟩ l2 = .ok ⟨finalizeLog s, none⟩) := by
  have hb : buildEntry th sev true line = .ok none :=
    buildEntry_db_skip h3 h5 h4 ⟨rfl, rfl⟩
  refine ⟨hb, step_header_skip hh hb, ?_, ?_⟩
  · intro c hc
    unfold finalizeLog
    rw [hc]
  · intro l2 hl2
    unfold step
    rw [if_neg (by simp [hl2])]

/-- A header line with the no-database sentinel `?`. -/
def c8Line : String := "2024-01-01 10:00:00,000 5 WARNING ? myapp: oops"

/-- A finalized message entry used as a concrete open accumulator. -/
def bootEntry : Entry :=
  ⟨.message ⟨"boom", []⟩, "2024-01-01 10:00:00", 1, "ERROR", "mydb", "myapp"⟩

theorem c8_ignore_no_db_w :
    buildEntry 0 0 true c8Line = .ok none
    ∧ step 0 0 true ⟨[], some bootEntry⟩ c8Line
        = .ok ⟨finalizeLog ⟨[], some bootEntry⟩, none⟩
    ∧ finalizeLog ⟨[], some bootEntry⟩ = bucketAppend [] bootEntry.level bootEntry
    ∧ step 0 0 true ⟨finalizeLog ⟨[], some bootEntry⟩, none⟩ "ctx"
        = .ok ⟨finalizeLog ⟨[], some bootEntry⟩, none⟩ := by
  obtain ⟨h1, h2, h3, h4⟩ :=
    c8_ignore_no_db 0 0 ⟨[], some bootEntry⟩ c8Line "WARNING" "myapp:" rfl rfl rfl rfl
  exact ⟨h1, h2, h3 bootEntry rfl, h4 "ctx" rfl⟩

/-! ### C7 — continuation lines go only to open message entries -/

/-- A retained message header (level `ERROR`). -/
def c7Header : String := "2024-01-01 10:00:00,000 1 ERROR mydb myapp: boom"

/-- A concrete open request entry. -/
def reqEntry : Entry :=
  ⟨.request ⟨"10.0.0.1", "GET", "/shop", "200", 1, 0, 1, 5⟩,
   "2024-01-01 10:00:00", 123, "REQUEST", "mydb", "werkzeug"⟩

/-- C7: a continuation (non-header) line is appended to the context of
the open entry iff that entry is a message entry; with no open entry or
an open request entry the line is dropped and the state is unchanged.  A
message header followed by two non-header lines and a new header yields a
context of exactly those two lines in order. -/
theorem c7_continuation :
    (∀ (th : ℚ) (sev : Nat) (ign : Bool) (s : RState) (line : String),
      isHeaderLine line = false → s.current = none →
      step th sev ign s line = .ok s)
    ∧ (∀ (th : ℚ) (sev : Nat) (ign : Bool) (s : RState) (line : String)
        (c : Entry) (r : RequestData),
      isHeaderLine line = false → s.current = some c → c.kind = .request r →
      step th sev ign s line = .ok s)
    ∧ (∀ (th : ℚ) (sev : Nat) (ign : Bool) (s : RState) (line : String)
        (c : Entry) (m : MessageData),
      isHeaderLine line = false → s.current = some c → c.kind = .message m →
      step th sev ign s line =
        .ok ⟨s.log, some ⟨.message ⟨m.message, m.context ++ [line]⟩,
          c.timestamp, c.pid, c.level, c.db, c.logger⟩⟩)
    ∧ readLines 0 0 true [c7Header, "ctx one", "ctx two", flushLine] =
        .ok [("ERROR", [⟨.message ⟨"boom", ["ctx one", "ctx two"]⟩,
          "2024-01-01 10:00:00", 1, "ERROR", "mydb", "myapp"⟩])] := by
  refine ⟨?_, ?_, ?_, rfl⟩
  · intro th sev ign s line hl hc
    unfold step
    rw [if_neg (by simp [hl]), hc]
  · intro th sev ign s line c r hl hc hk
    unfold step
    rw [if_neg (by simp [hl]), hc]
    dsimp only []
    rw [hk]
  · intro th sev ign s line c m hl hc hk
    unfold step
    rw [if_neg (by simp [hl]), hc]
    dsimp only []
    rw [hk]

theorem c7_continuation_w :
    step 0 0 true ⟨[], none⟩ "plain text" = .ok ⟨[], none⟩
    ∧ step 0 0 true ⟨[], some reqEntry⟩ "plain text" = .ok ⟨[], some reqEntry⟩
    ∧ step 0 0 true ⟨[], some bootEntry⟩ "plain text" =
        .ok ⟨[], some ⟨.message ⟨"boom", [] ++ ["plain text"]⟩,
          bootEntry.timestamp, bootEntry.pid, bootEntry.level,
          bootEntry.db, bootEntry.logger⟩⟩ :=
  ⟨c7_continuation.1 0 0 true ⟨[], none⟩ "plain text" rfl rfl,
   c7_continuation.2.1 0 0 true ⟨[], some reqEntry⟩ "plain text" reqEntry
     ⟨"10.0.0.1", "GET", "/shop", "200", 1, 0, 1, 5⟩ rfl rfl rfl,
   c7_continuation.2.2.1 0 0 true ⟨[], some bootEntry⟩ "plain text" bootEntry
     ⟨"boom", []⟩ rfl rfl rfl⟩

/-! ### C3 — the last in-progress entry is dropped at end of input -/

theorem foldlM_append_ex {σ α : Type} (f : σ → α → Except String σ)
    (l₁ l₂ : List α) (s : σ) :
    (l₁ ++ l₂).foldlM f s = Except.bind (l₁.foldlM f s) fun s' => l₂.foldlM f s' := by
  induction l₁ generalizing s with
  | nil => rfl
  | cons a t ih =>
    show Except.bind (f s a) (fun s' => (t ++ l₂).foldlM f s')
      = Except.bind (Except.bind (f s a) fun s' => t.foldlM f s')
          fun s' => l₂.foldlM f s'
    cases h : f s a with
    | error e => rw [ex_bind_error, ex_bind_error, ex_bind_error]
    | ok v =>
      rw [ex_bind_ok, ex_bind_ok]
      exact ih v

theorem processLines_append (th : ℚ) (sev : Nat) (ign : Bool)
    (l₁ l₂ : List String) :
    processLines th sev ign (l₁ ++ l₂) =
      Except.bind (processLines th sev ign l₁)
        fun s' => l₂.foldlM (step th sev ign) s' :=
  foldlM_append_ex _ _ _ _

theorem bucketGet_append (b : Bucket) (k : String) (e : Entry) :
    bucketGet (bucketAppend b k e) k = bucketGet b k ++ [e] := by
  induction b with
  | nil => simp [bucketGet, bucketAppend, lookupD]
  | cons p t ih =>
    obtain ⟨k', es⟩ := p
    by_cases h : k' = k
    · simp [bucketGet, bucketAppend, lookupD, h]
    · simpa [bucketGet, bucketAppend, lookupD, h] using ih

/-- The line `flushLine` never raises: its db is real and its level is known, so
the builder either retains it or skips it on severity. -/
theorem flushLine_build (th : ℚ) (sev : Nat) (ign : Bool) :
    ∃ x, buildEntry th sev ign flushLine = .ok x := by
  have hdb : ¬(ign = true ∧ "adb" = "?") := by
    rintro ⟨-, h⟩
    exact absurd h (by decide)
  have hni : ¬(pyDropLast "core:" = "werkzeug" ∧ "CRITICAL" = "INFO") := by
    rintro ⟨-, h⟩
    exact absurd h (by decide)
  by_cases hs : (50 : Nat) < sev
  · exact ⟨none, buildEntry_kind_skip rfl rfl rfl hdb (buildKind_msg_skip hni hs)⟩
  · refine ⟨some ⟨.message ⟨joinSpace ((pySplit flushLine).drop 6), []⟩,
      "2024-01-01 00:00:00", 7,
      kindLevel (.message ⟨joinSpace ((pySplit flushLine).drop 6), []⟩) "CRITICAL",
      "adb", pyDropLast "core:"⟩, ?_⟩
    exact buildEntry_kind_keep rfl rfl rfl hdb (buildKind_msg_keep hni hs)
      rfl rfl rfl rfl rfl

/-- C3: when the processing loop ends with an entry still open, the
returned bucket map is exactly the accumulated one — the open entry is
absent — and appending one more header line is what finalizes it, as the
last element of its level's bucket. -/
theorem c3_eof_drop (th : ℚ) (sev : Nat) (ign : Bool) (lines : List String)
    (st : RState) (c : Entry)
    (hp : processLines th sev ign lines = .ok st) (hc : st.current = some c) :
    readLines th sev ign lines = .ok st.log
    ∧ readLines th sev ign (lines ++ [flushLine]) = .ok (bucketAppend st.log c.level c)
    ∧ bucketGet (bucketAppend st.log c.level c) c.level
        = bucketGet st.log c.level ++ [c] := by
  refine ⟨?_, ?_, bucketGet_append st.log c.level c⟩
  · unfold readLines
    rw [hp]
    rfl
  · obtain ⟨x, hx⟩ := flushLine_build th sev ign
    have hstep : step th sev ign st flushLine = .ok ⟨finalizeLog st, x⟩ := by
      unfold step
      rw [if_pos (show isHeaderLine flushLine = true from rfl), hx, ex_bind_ok]
    unfold readLines
    rw [processLines_append, hp, ex_bind_ok]
    show Except.map RState.log
      (Except.bind (step th sev ign st flushLine) fun s' => List.foldlM _ s' []) = _
    rw [hstep, ex_bind_ok]
    show Except.ok (finalizeLog st) = _
    unfold finalizeLog
    rw [hc]

theorem c3_eof_drop_w :
    readLines 0 0 true [c7Header] = .ok []
    ∧ readLines 0 0 true ([c7Header] ++ [flushLine])
        = .ok (bucketAppend [] bootEntry.level bootEntry)
    ∧ bucketGet (bucketAppend [] bootEntry.level bootEntry) bootEntry.level
        = bucketGet [] bootEntry.level ++ [bootEntry] :=
  c3_eof_drop 0 0 true [c7Header] ⟨[], some bootEntry⟩ bootEntry rfl rfl

/-! ### C6 — totalTime is exactly the sum of its two parsed components -/

theorem pyIndex_none {α : Type} {l : List α} {i : Nat} (h : l.get? i = none) :
    pyIndex l i = .error "IndexError" := by
  unfold pyIndex
  rw [h]

theorem pyFloat_none {t : String} (h : parseFloat t = none) :
    pyFloat t = .error "ValueError" := by
  unfold pyFloat
  rw [h]

theorem pyInt_none {t : String} (h : parseInt t = none) :
    pyInt t = .error "ValueError" := by
  unfold pyInt
  rw [h]

/-- Inversion: a retained entry comes out of `buildKind`, with the header
tokens at their fixed positions. -/
theorem buildEntry_inv {th : ℚ} {sev : Nat} {ign : Bool} {line : String} {e : Entry}
    (h : buildEntry th sev ign line = .ok (some e)) :
    ∃ lvl t5 db, (pySplit line).get? 3 = some lvl
      ∧ (pySplit line).get? 5 = some t5
      ∧ (pySplit line).get? 4 = some db
      ∧ buildKind th sev line (pySplit line) lvl (pyDropLast t5) = .ok (some e.kind) := by
  unfold buildEntry at h
  dsimp only [] at h
  cases h3 : (pySplit line).get? 3 with
  | none => rw [pyIndex_none h3, ex_bind_error] at h; exact absurd h (by simp)
  | some lvl =>
  rw [pyIndex_ok h3, ex_bind_ok] at h
  cases h5 : (pySplit line).get? 5 with
  | none => rw [pyIndex_none h5, ex_bind_error] at h; exact absurd h (by simp)
  | some t5 =>
  rw [pyIndex_ok h5, ex_bind_ok] at h
  cases h4 : (pySplit line).get? 4 with
  | none => rw [pyIndex_none h4, ex_bind_error] at h; exact absurd h (by simp)
  | some db =>
  rw [pyIndex_ok h4, ex_bind_ok] at h
  by_cases hdb : ign = true ∧ db = "?"
  · rw [if_pos hdb] at h
    exact absurd h (by simp)
  · rw [if_neg hdb] at h
    cases hk : buildKind th sev line (pySplit line) lvl (pyDropLast t5) with
    | error msg => rw [hk, ex_bind_error] at h; exact absurd h (by simp)
    | ok kindOpt =>
    rw [hk, ex_bind_ok] at h
    cases kindOpt with
    | none => exact absurd h (by simp)
    | some kind =>
    refine ⟨lvl, t5, db, rfl, rfl, rfl, ?_⟩
    dsimp only [] at h
    cases h0 : (pySplit line).get? 0 with
    | none => rw [pyIndex_none h0, ex_bind_error] at h; exact absurd h (by simp)
    | some d =>
    rw [pyIndex_ok h0, ex_bind_ok] at h
    cases h1 : (pySplit line).get? 1 with
    | none => rw [pyIndex_none h1, ex_bind_error] at h; exact absurd h (by simp)
    | some ttok =>
    rw [pyIndex_ok h1, ex_bind_ok] at h
    cases hts : pyStrptime (d ++ " " ++ timeToken ttok) with
    | error msg => rw [hts, ex_bind_error] at h; exact absurd h (by simp)
    | ok ts =>
    rw [hts, ex_bind_ok] at h
    cases h2 : (pySplit line).get? 2 with
    | none => rw [pyIndex_none h2, ex_bind_error] at h; exact absurd h (by simp)
    | some ptok =>
    rw [pyIndex_ok h2, ex_bind_ok] at h
    cases hpid : parseInt ptok with
    | none => rw [pyInt_none hpid, ex_bind_error] at h; exact absurd h (by simp)
    | some pid =>
    rw [pyInt_ok hpid, ex_bind_ok] at h
    obtain rfl : (⟨kind, ts, pid, kindLevel kind lvl, db, pyDropLast t5⟩ : Entry) = e := by
      simpa using h
    exact hk

/-- Inversion: a request kind comes out of the `werkzeug`/`INFO` branch,
with `totalTime` the exact sum of the two parsed components and at least
the threshold. -/
theorem buildKind_request_inv {th : ℚ} {sev : Nat} {line : String} {fr : List String}
    {lv lg : String} {r : RequestData}
    (h : buildKind th sev line fr lv lg = .ok (some (.request r))) :
    ∃ tO tS, fr.get? (fr.length - 1) = some tO ∧ fr.get? (fr.length - 2) = some tS
      ∧ parseFloat tO = some r.other_time ∧ parseFloat tS = some r.sql_time
      ∧ r.total_time = r.other_time + r.sql_time ∧ ¬(r.total_time < th) := by
  unfold buildKind at h
  by_cases hwz : lg = "werkzeug" ∧ lv = "INFO"
  case neg =>
    rw [if_neg hwz] at h
    by_cases hr : (lookupOpt LEVEL_MAPPING lv).getD 0 < sev
    · rw [if_pos hr] at h
      exact absurd h (by simp)
    · rw [if_neg hr] at h
      exact absurd h (by simp)
  case pos =>
    rw [if_pos hwz] at h
    by_cases hsk : th = 0 ∨ pyEndsWith line "-" = true
    · rw [if_pos hsk] at h
      exact absurd h (by simp)
    · rw [if_neg hsk] at h
      cases ho : fr.get? (fr.length - 1) with
      | none => rw [pyIndex_none ho, ex_bind_error] at h; exact absurd h (by simp)
      | some tO =>
      rw [pyIndex_ok ho, ex_bind_ok] at h
      cases hfo : parseFloat tO with
      | none => rw [pyFloat_none hfo, ex_bind_error] at h; exact absurd h (by simp)
      | some o =>
      rw [pyFloat_ok hfo, ex_bind_ok] at h
      cases hs : fr.get? (fr.length - 2) with
      | none => rw [pyIndex_none hs, ex_bind_error] at h; exact absurd h (by simp)
      | some tS =>
      rw [pyIndex_ok hs, ex_bind_ok] at h
      cases hfs : parseFloat tS with
      | none => rw [pyFloat_none hfs, ex_bind_error] at h; exact absurd h (by simp)
      | some s =>
      rw [pyFloat_ok hfs, ex_bind_ok] at h
      dsimp only [] at h
      by_cases hlt : o + s < th
      · rw [if_pos hlt] at h
        exact absurd h (by simp)
      · rw [if_neg hlt] at h
        cases h6 : fr.get? 6 with
        | none => rw [pyIndex_none h6, ex_bind_error] at h; exact absurd h (by simp)
        | some ip =>
        rw [pyIndex_ok h6, ex_bind_ok] at h
        cases h11 : fr.get? 11 with
        | none => rw [pyIndex_none h11, ex_bind_error] at h; exact absurd h (by simp)
        | some m =>
        rw [pyIndex_ok h11, ex_bind_ok] at h
        cases h12 : fr.get? 12 with
        | none => rw [pyIndex_none h12, ex_bind_error] at h; exact absurd h (by simp)
        | some ep =>
        rw [pyIndex_ok h12, ex_bind_ok] at h
        cases h14 : fr.get? 14 with
        | none => rw [pyIndex_none h14, ex_bind_error] at h; exact absurd h (by simp)
        | some st =>
        rw [pyIndex_ok h14, ex_bind_ok] at h
        cases hcq : fr.get? (fr.length - 3) with
        | none => rw [pyIndex_none hcq, ex_bind_error] at h; exact absurd h (by simp)
        | some tC =>
        rw [pyIndex_ok hcq, ex_bind_ok] at h
        cases hq : parseInt tC with
        | none => rw [pyInt_none hq, ex_bind_error] at h; exact absurd h (by simp)
        | some qc =>
        rw [pyInt_ok hq, ex_bind_ok] at h
        obtain rfl : (⟨ip, pyDropFirst m, ep, st, o, s, o + s, qc⟩ : RequestData) = r := by
          simpa using h
        exact ⟨tO, tS, rfl, rfl, hfo, hfs, rfl, hlt⟩

/-- C6: every retained request entry has `totalTime` exactly the sum of
the `otherTime` and `sqlTime` parsed from the last two tokens (and at
least the threshold); a request line whose computed total is strictly
below the threshold is skipped. -/
theorem c6_total_time :
    (∀ (th : ℚ) (sev : Nat) (ign : Bool) (line : String) (e : Entry) (r : RequestData),
      buildEntry th sev ign line = .ok (some e) → e.kind = .request r →
      ∃ tO tS, (pySplit line).get? ((pySplit line).length - 1) = some tO
        ∧ (pySplit line).get? ((pySplit line).length - 2) = some tS
        ∧ parseFloat tO = some r.other_time
        ∧ parseFloat tS = some r.sql_time
        ∧ r.total_time = r.other_time + r.sql_time
        ∧ ¬(r.total_time < th))
    ∧ (∀ (th : ℚ) (sev : Nat) (ign : Bool) (line t5 db tO tS : String) (o s : ℚ),
      (pySplit line).get? 3 = some "INFO" →
      (pySplit line).get? 5 = some t5 → pyDropLast t5 = "werkzeug" →
      (pySplit line).get? 4 = some db → ¬(ign = true ∧ db = "?") →
      ¬(th = 0 ∨ pyEndsWith line "-" = true) →
      (pySplit line).get? ((pySplit line).length - 1) = some tO →
      (pySplit line).get? ((pySplit line).length - 2) = some tS →
      parseFloat tO = some o → parseFloat tS = some s →
      o + s < th →
      buildEntry th sev ign line = .ok none) := by
  constructor
  · intro th sev ign line e r hb hk
    obtain ⟨lvl, t5, db, -, -, -, hkind⟩ := buildEntry_inv hb
    rw [hk] at hkind
    exact buildKind_request_inv hkind
  · intro th sev ign line t5 db tO tS o s h3 h5 hwz h4 hdb hsk ho hs hfo hfs hlt
    exact buildEntry_kind_skip h3 h5 h4 hdb
      (buildKind_req_slow ⟨hwz, rfl⟩ hsk ho hfo hs hfs hlt)

/-- A full request line in the real werkzeug access-log layout. -/
def c6Line : String :=
  "2024-01-01 10:00:00,000 123 INFO mydb werkzeug: 10.0.0.1 - - [01/Jan/2024 10:00:00] \"GET /shop HTTP/1.1\" 200 - 5 0.010 0.040"

def c6Req : RequestData :=
  ⟨"10.0.0.1", "GET", "/shop", "200", 1/25, 1/100, 1/25 + 1/100, 5⟩

def c6Entry : Entry :=
  ⟨.request c6Req, "2024-01-01 10:00:00", 123, "REQUEST", "mydb", "werkzeug"⟩

theorem c6_total_time_w :
    buildEntry (1/25) 51 true c6Line = .ok (some c6Entry)
    ∧ c6Req.total_time = c6Req.other_time + c6Req.sql_time
    ∧ buildEntry 1 51 true c6Line = .ok none := by
  have hsk : ¬((1/25 : ℚ) = 0 ∨ pyEndsWith c6Line "-" = true) := by
    push_neg
    exact ⟨by norm_num, by decide⟩
  have hb : buildEntry (1/25) 51 true c6Line = .ok (some c6Entry) :=
    buildEntry_kind_keep
      (show (pySplit c6Line).get? 3 = some "INFO" from rfl)
      (show (pySplit c6Line).get? 5 = some "werkzeug:" from rfl)
      (show (pySplit c6Line).get? 4 = some "mydb" from rfl)
      (by simp)
      (buildKind_req_keep ⟨rfl, rfl⟩ hsk
        (show (pySplit c6Line).get? ((pySplit c6Line).length - 1) = some "0.040" from rfl)
        parseFloat_0040
        (show (pySplit c6Line).get? ((pySplit c6Line).length - 2) = some "0.010" from rfl)
        parseFloat_0010
        (by norm_num)
        (show (pySplit c6Line).get? 6 = some "10.0.0.1" from rfl)
        (show (pySplit c6Line).get? 11 = some "\"GET" from rfl)
        (show (pySplit c6Line).get? 12 = some "/shop" from rfl)
        (show (pySplit c6Line).get? 14 = some "200" from rfl)
        (show (pySplit c6Line).get? ((pySplit c6Line).length - 3) = some "5" from rfl)
        (show parseInt "5" = some 5 from rfl))
      rfl rfl rfl rfl rfl
  obtain ⟨tO, tS, -, -, -, -, htot, -⟩ :=
    c6_total_time.1 (1/25) 51 true c6Line c6Entry c6Req hb rfl
  have hsk1 : ¬((1 : ℚ) = 0 ∨ pyEndsWith c6Line "-" = true) := by
    push_neg
    exact ⟨by norm_num, by decide⟩
  exact ⟨hb, htot,
    c6_total_time.2 1 51 true c6Line "werkzeug:" "mydb" "0.040" "0.010" (1/25) (1/100)
      rfl rfl rfl rfl (by simp) hsk1 rfl rfl parseFloat_0040 parseFloat_0010 (by norm_num)⟩

/-! ### C1 — the online running average equals the batch mean -/

theorem lookupD_setKey_self {α : Type} (l : List (String × α)) (k : String)
    (v d : α) : lookupD (setKey l k v) k d = v := by
  induction l with
  | nil => simp [setKey, lookupD]
  | cons p t ih =>
    obtain ⟨k', v'⟩ := p
    by_cases h : k' = k
    · simp [setKey, lookupD, h]
    · simpa [setKey, lookupD, h] using ih

theorem lookupD_setKey_ne {α : Type} (l : List (String × α)) (k k' : String)
    (v d : α) (h : k' ≠ k) : lookupD (setKey l k v) k' d = lookupD l k' d := by
  have hk : k ≠ k' := Ne.symm h
  induction l with
  | nil =>
    show (if k = k' then v else d) = d
    rw [if_neg hk]
  | cons p t ih =>
    obtain ⟨k'', v''⟩ := p
    show lookupD (if k'' = k then (k'', v) :: t else (k'', v'') :: setKey t k v) k' d
      = lookupD ((k'', v'') :: t) k' d
    by_cases h2 : k'' = k
    · rw [if_pos h2]
      have hne : k'' ≠ k' := by rw [h2]; exact hk
      show (if k'' = k' then v else lookupD t k' d)
        = if k'' = k' then v'' else lookupD t k' d
      rw [if_neg hne, if_neg hne]
    · rw [if_neg h2]
      show (if k'' = k' then v'' else lookupD (setKey t k v) k' d)
        = if k'' = k' then v'' else lookupD t k' d
      by_cases h3 : k'' = k'
      · rw [if_pos h3, if_pos h3]
      · rw [if_neg h3, if_neg h3]
        exact ih

theorem agg_hits (E : String) (reqs : List RequestData) :
    ∀ s : AggState,
      lookupD (List.foldl aggStep s reqs).ep_hits E 0
        = lookupD s.ep_hits E 0 + (epFilter reqs E).length := by
  induction reqs with
  | nil => intro s; simp [epFilter]
  | cons r t ih =>
    intro s
    rw [List.foldl_cons, ih (aggStep s r)]
    by_cases h : normEp r.endpoint = E
    · have h1 : lookupD (aggStep s r).ep_hits E 0 = lookupD s.ep_hits E 0 + 1 := by
        unfold aggStep
        dsimp only []
        rw [h, lookupD_setKey_self]
      have h2 : epFilter (r :: t) E = r :: epFilter t E := by
        simp [epFilter, List.filter_cons, h]
      rw [h1, h2]
      simp only [List.length_cons]
      omega
    · have h1 : lookupD (aggStep s r).ep_hits E 0 = lookupD s.ep_hits E 0 := by
        unfold aggStep
        dsimp only []
        exact lookupD_setKey_ne _ _ _ _ _ (fun he => h he.symm)
      have h2 : epFilter (r :: t) E = epFilter t E := by
        simp [epFilter, List.filter_cons, h]
      rw [h1, h2]

theorem agg_times (E : String) (reqs : List RequestData) :
    ∀ s : AggState,
      lookupD (List.foldl aggStep s reqs).ep_times E 0
          * Nat.cast (lookupD (List.foldl aggStep s reqs).ep_hits E 0)
        = lookupD s.ep_times E 0 * Nat.cast (lookupD s.ep_hits E 0)
          + ((epFilter reqs E).map RequestData.total_time).sum := by
  induction reqs with
  | nil => intro s; simp [epFilter]
  | cons r t ih =>
    intro s
    rw [List.foldl_cons, ih (aggStep s r)]
    by_cases h : normEp r.endpoint = E
    · have h1 : lookupD (aggStep s r).ep_hits E 0 = lookupD s.ep_hits E 0 + 1 := by
        unfold aggStep
        dsimp only []
        rw [h, lookupD_setKey_self]
      have h2 : lookupD (aggStep s r).ep_times E 0
          = (lookupD s.ep_times E 0 * Nat.cast (lookupD s.ep_hits E 0) + r.total_time)
              / ((Nat.cast (lookupD s.ep_hits E 0) : ℚ) + 1) := by
        unfold aggStep
        dsimp only []
        rw [h, lookupD_setKey_self]
      have h3 : epFilter (r :: t) E = r :: epFilter t E := by
        simp [epFilter, List.filter_cons, h]
      rw [h1, h2, h3]
      have hne : ((Nat.cast (lookupD s.ep_hits E 0) : ℚ) + 1) ≠ 0 := by positivity
      push_cast
      rw [div_mul_cancel₀ _ hne]
      simp only [List.map_cons, List.sum_cons]
      ring
    · have h1 : lookupD (aggStep s r).ep_hits E 0 = lookupD s.ep_hits E 0 := by
        unfold aggStep
        dsimp only []
        exact lookupD_setKey_ne _ _ _ _ _ (fun he => h he.symm)
      have h2 : lookupD (aggStep s r).ep_times E 0 = lookupD s.ep_times E 0 := by
        unfold aggStep
        dsimp only []
        exact lookupD_setKey_ne _ _ _ _ _ (fun he => h he.symm)
      have h3 : epFilter (r :: t) E = epFilter t E := by
        simp [epFilter, List.filter_cons, h]
      rw [h1, h2, h3]

/-- The two `/shop` requests of the spec scenario (`totalTime` 1.0, 3.0). -/
def shopReq1 : RequestData := ⟨"ip1", "GET", "/shop", "200", 1, 0, 1, 0⟩

def shopReq2 : RequestData := ⟨"ip2", "GET", "/shop", "200", 3, 0, 3, 0⟩

/-- C1: after the aggregation loop, the hit count of every endpoint key is
the number of requests normalizing to it, and the running average equals
the batch arithmetic mean of their `totalTime`s; in particular two
`/shop` requests with totals 1 and 3 give hit count 2 and average 2. -/
theorem c1_running_average :
    (∀ (reqs : List RequestData) (E : String),
      lookupD (aggregate reqs).ep_hits E 0 = (epFilter reqs E).length
      ∧ (epFilter reqs E ≠ [] →
        lookupD (aggregate reqs).ep_times E 0
          = ((epFilter reqs E).map RequestData.total_time).sum
              / ((epFilter reqs E).length : ℚ)))
    ∧ lookupD (aggregate [shopReq1, shopReq2]).ep_hits "/shop" 0 = 2
    ∧ lookupD (aggregate [shopReq1, shopReq2]).ep_times "/shop" 0 = 2 := by
  have hpart : ∀ (reqs : List RequestData) (E : String),
      lookupD (aggregate reqs).ep_hits E 0 = (epFilter reqs E).length
      ∧ (epFilter reqs E ≠ [] →
        lookupD (aggregate reqs).ep_times E 0
          = ((epFilter reqs E).map RequestData.total_time).sum
              / ((epFilter reqs E).length : ℚ)) := by
    intro reqs E
    have hh := agg_hits E reqs ⟨[], []⟩
    have ht := agg_times E reqs ⟨[], []⟩
    simp only [lookupD, Nat.zero_add, Nat.cast_zero, mul_zero, zero_add, zero_mul] at hh ht
    refine ⟨hh, fun hne => ?_⟩
    have hlen : ((epFilter reqs E).length : ℚ) ≠ 0 :=
      Nat.cast_ne_zero.mpr (List.length_pos.mpr hne).ne'
    rw [eq_div_iff hlen]
    rw [hh] at ht
    exact ht
  refine ⟨hpart, ?_, ?_⟩
  · exact (hpart [shopReq1, shopReq2] "/shop").1.trans rfl
  · have h2 := (hpart [shopReq1, shopReq2] "/shop").2 (by decide)
    rw [h2]
    show ((1 : ℚ) + (3 + 0)) / ((2 : ℕ) : ℚ) = 2
    norm_num

theorem c1_running_average_w :
    lookupD (aggregate [shopReq1, shopReq2]).ep_times "/shop" 0
      = ((epFilter [shopReq1, shopReq2] "/shop").map RequestData.total_time).sum
          / ((epFilter [shopReq1, shopReq2] "/shop").length : ℚ) :=
  (c1_running_average.1 [shopReq1, shopReq2] "/shop").2 (by decide)

end OdooLog
